import Mathlib

/-!
# Verification of the gov-subsidy-platform scoring core

Shallow embedding of the burden-based eligibility scoring engine
(`backend/smolagents-service/tools/eligibility_score_tool.py`) and the
dual-analysis comparator
(`backend/smolagents-service/services/analysis_comparator.py`).

Conventions of the embedding:
* Python floats are modelled as exact rationals (`ℚ`).  Every constant of the
  scoring pipeline (weights 0.75/0.25/0.5/0.3, tier bases, piecewise scores)
  is a dyadic or small decimal value, so the rational model agrees with IEEE
  evaluation on all facts proved here.
* Python dictionaries read with `.get(key, default)` are modelled as records
  with `Option` fields together with `Option.getD`.
* The mutable per-instance statistics dictionary (`self.scoring_stats`) is
  modelled by explicit state passing: every method that mutates it takes a
  `ScoringStats` and returns the updated one.
* `datetime.now()` is modelled by explicit integer time parameters threaded
  into `forward`.
* The state×bracket CSV income table is loaded from a data file outside the
  program text; it is modelled as an arbitrary partial lookup function
  parameter, keeping the lookup/fallback order of the code.
-/

namespace GovSubsidy

/-! ## Eligibility scoring tool (`eligibility_score_tool.py`) -/

namespace Eligibility

/-- Applicant record (`applicant_data` dictionary).  A field read through
`dict.get` may be absent (or `None`), which `Option.none` represents. -/
structure ApplicantData where
  state : Option String
  income_bracket : Option String
  household_size : Option ℤ
  number_of_children : Option ℤ
  disability_status : Option Bool
  is_signature_valid : Option Bool
  is_data_authentic : Option Bool
deriving DecidableEq

/-- The mutable `self.scoring_stats` dictionary. -/
structure ScoringStats where
  total_scores_calculated : ℕ
  csv_lookups_successful : ℕ
  national_fallback_used : ℕ
  missing_data_cases : ℕ
deriving DecidableEq

/-- Initial value of `self.scoring_stats` set in `__init__`. -/
def initStats : ScoringStats := ⟨0, 0, 0, 0⟩

/-- The CSV state income table (`self.state_income_data`): a sparse
(state, income_group) ↦ income lookup, loaded from a file external to the
program text, hence a parameter of the model. -/
def StateIncomeTable : Type := String → String → Option ℚ

/-- `self.state_name_mapping` with the `.get(state, state)` default. -/
def state_name_mapping (s : String) : String :=
  if s = "Kuala Lumpur" then "W.P. Kuala Lumpur"
  else if s = "Labuan" then "W.P. Labuan"
  else if s = "Putrajaya" then "W.P. Putrajaya"
  else s

/-- `self.national_thresholds` (from MalaysianIncomeClassifier.circom). -/
def national_thresholds (b : String) : Option ℚ :=
  if b = "B1" then some 2560 else if b = "B2" then some 3439
  else if b = "B3" then some 4309 else if b = "B4" then some 5249
  else if b = "M1" then some 6339 else if b = "M2" then some 7689
  else if b = "M3" then some 9449 else if b = "M4" then some 11819
  else if b = "T1" then some 15869 else if b = "T2" then some 20000
  else none

/-- `self.state_median_burdens` (HIES-derived constants, AE = 3.0). -/
def state_median_burdens (s : String) : Option ℚ :=
  if s = "Johor" then some 0.000403
  else if s = "Kedah" then some 0.000637
  else if s = "Kelantan" then some 0.000772
  else if s = "Melaka" then some 0.000448
  else if s = "Negeri Sembilan" then some 0.000530
  else if s = "Pahang" then some 0.000593
  else if s = "Perak" then some 0.000620
  else if s = "Perlis" then some 0.000600
  else if s = "Pulau Pinang" then some 0.000430
  else if s = "Sabah" then some 0.000605
  else if s = "Sarawak" then some 0.000556
  else if s = "Selangor" then some 0.000284
  else if s = "Terengganu" then some 0.000483
  else if s = "W.P. Kuala Lumpur" then some 0.000275
  else if s = "W.P. Labuan" then some 0.000410
  else if s = "W.P. Putrajaya" then some 0.000284
  else none

/-- `self.national_median_burden`. -/
def national_median_burden : ℚ := 0.000507

/-- `self.OTHER_ADULT_WEIGHT`. -/
def OTHER_ADULT_WEIGHT : ℚ := 0.5

/-- `self.CHILD_WEIGHT`. -/
def CHILD_WEIGHT : ℚ := 0.3

/-- `self.base_scores`: policy base score per eligibility class. -/
def base_scores (c : String) : Option ℚ :=
  if c = "B40" then some 60
  else if c = "M40-M1" then some 40
  else if c = "M40-M2" then some 20
  else if c = "T20" then some 0
  else none

/-- `self.bracket_to_class`: income bracket → eligibility class. -/
def bracket_to_class (b : String) : Option String :=
  if b = "B1" then some "B40" else if b = "B2" then some "B40"
  else if b = "B3" then some "B40" else if b = "B4" then some "B40"
  else if b = "M1" then some "M40-M1" else if b = "M2" then some "M40-M1"
  else if b = "M3" then some "M40-M2" else if b = "M4" then some "M40-M2"
  else if b = "T1" then some "T20" else if b = "T2" then some "T20"
  else none

/-- `_get_base_score`: `base_scores.get(bracket_to_class.get(bracket, 'T20'), 0)`. -/
def _get_base_score (income_bracket : String) : ℚ :=
  (base_scores ((bracket_to_class income_bracket).getD "T20")).getD 0

/-- `_calculate_raw_burden_score`: FYP piecewise scoring on the burden ratio. -/
def _calculate_raw_burden_score (burden_ratio : ℚ) : ℚ :=
  if burden_ratio ≤ 1.0 then 50
  else if burden_ratio ≤ 1.2 then 70
  else if burden_ratio ≤ 1.5 then 90
  else 100

/-- `_get_state_median_burden` with national fallback. -/
def _get_state_median_burden (state : String) : ℚ :=
  (state_median_burdens (state_name_mapping state)).getD national_median_burden

/-- `_get_equivalent_income`: CSV lookup, then national threshold, then the
literal constant 5000.0, bumping the matching statistics counter. -/
def _get_equivalent_income (tbl : StateIncomeTable) (stats : ScoringStats)
    (state income_bracket : String) : ℚ × ScoringStats :=
  let csv_state := state_name_mapping state
  match tbl csv_state income_bracket with
  | some income =>
      (income, { stats with csv_lookups_successful := stats.csv_lookups_successful + 1 })
  | none =>
      match national_thresholds income_bracket with
      | some income =>
          (income, { stats with national_fallback_used := stats.national_fallback_used + 1 })
      | none => (5000, stats)

/-- `_calculate_documentation_score`: all-or-nothing, both flags must be
literally `True` (`is True` in the Python source). -/
def _calculate_documentation_score (d : ApplicantData) : ℚ :=
  if d.is_signature_valid = some true ∧ d.is_data_authentic = some true then 100 else 0

/-- `_calculate_disability_score`: 100 iff `disability_status is True`. -/
def _calculate_disability_score (d : ApplicantData) : ℚ :=
  if d.disability_status = some true then 100 else 0

/-- `_calculate_final_score`: `min(100, base + burden*0.75 + doc*0.25)`.
The `disability_score` argument is accepted and unused, as in the source. -/
def _calculate_final_score (base_score burden_score doc_score _disability_score : ℚ) : ℚ :=
  let weighted_burden := burden_score * 0.75
  let weighted_documentation := doc_score * 0.25
  let component_total := weighted_burden + weighted_documentation
  min 100 (base_score + component_total)

/-- `self.required_fields` check (`_check_missing_fields`): the field list
is traversed in declaration order; a field absent or `None` is missing. -/
def required_missing (d : ApplicantData) : List String :=
  (if d.state.isNone then ["state"] else []) ++
  (if d.income_bracket.isNone then ["income_bracket"] else []) ++
  (if d.household_size.isNone then ["household_size"] else []) ++
  (if d.number_of_children.isNone then ["number_of_children"] else [])

/-- `_check_missing_fields`, bumping `missing_data_cases` when nonempty. -/
def _check_missing_fields (stats : ScoringStats) (d : ApplicantData) :
    List String × ScoringStats :=
  let missing := required_missing d
  if missing = [] then (missing, stats)
  else (missing, { stats with missing_data_cases := stats.missing_data_cases + 1 })

/-- `BurdenCalculationResult` dataclass. -/
structure BurdenCalculationResult where
  equivalent_income : ℚ
  adult_equivalent : ℚ
  applicant_burden : ℚ
  reference_burden : ℚ
  burden_ratio : ℚ
  tier_range : String
  score : ℚ
  confidence : ℚ
deriving DecidableEq

/-- `_calculate_burden_score`: state-median burden methodology with the
disability short-circuit.  Statistics are threaded through the equivalent
income lookup. -/
def _calculate_burden_score (tbl : StateIncomeTable) (stats : ScoringStats)
    (d : ApplicantData) : BurdenCalculationResult × ScoringStats :=
  let state := d.state.getD ""
  let income_bracket := d.income_bracket.getD ""
  let household_size := d.household_size.getD 1
  let number_of_children := d.number_of_children.getD 0
  let ei := _get_equivalent_income tbl stats state income_bracket
  let equivalent_income := ei.1
  let adults : ℤ := max 1 (household_size - number_of_children)
  let adult_equivalent : ℚ :=
    1 + OTHER_ADULT_WEIGHT * ((adults : ℚ) - 1) + CHILD_WEIGHT * (number_of_children : ℚ)
  let applicant_burden := if equivalent_income > 0 then adult_equivalent / equivalent_income else 0
  let state_median_burden := _get_state_median_burden state
  let burden_ratio := if state_median_burden > 0 then applicant_burden / state_median_burden else 1.0
  let disability_status := d.disability_status.getD false
  if disability_status then
    ({ equivalent_income := equivalent_income
       adult_equivalent := adult_equivalent
       applicant_burden := applicant_burden
       reference_burden := state_median_burden
       burden_ratio := burden_ratio
       tier_range := "Disability Auto-Qualification"
       score := 100
       confidence := 1.0 }, ei.2)
  else
    let raw_burden_score := _calculate_raw_burden_score burden_ratio
    let base_score := _get_base_score income_bracket
    let doc_score := _calculate_documentation_score d
    let disability_score := _calculate_disability_score d
    let final_score := _calculate_final_score base_score raw_burden_score doc_score disability_score
    ({ equivalent_income := equivalent_income
       adult_equivalent := adult_equivalent
       applicant_burden := applicant_burden
       reference_burden := state_median_burden
       burden_ratio := burden_ratio
       tier_range := "Base: " ++ toString base_score ++ ", Raw burden: " ++ toString raw_burden_score
       score := final_score
       confidence := 1.0 }, ei.2)

/-- Python `round(x, 2)`.  Python rounds half to even; this model rounds half
up.  The two conventions agree whenever `x * 100` is an integer, which holds
for every final score this engine produces (all are multiples of 1/2). -/
def round2 (q : ℚ) : ℚ := (round (q * 100) : ℤ) / 100

/-- Python `round(x, 1)`, with the same half-value caveat as `round2`. -/
def round1 (q : ℚ) : ℚ := (round (q * 10) : ℤ) / 10

/-- The `weighted_components` dictionary of `ScoringBreakdown`: its key set
differs between the disability branch and the normal branch. -/
inductive WeightedComponents where
  | autoQualify (base_score final_score : ℚ)
  | normal (base_score raw_burden_score weighted_burden_75pct
      weighted_documentation_25pct component_total final_score_capped : ℚ)
deriving DecidableEq

/-- `ScoringBreakdown` dataclass. -/
structure ScoringBreakdown where
  burden_score : ℚ
  documentation_score : ℚ
  disability_score : ℚ
  weighted_components : WeightedComponents
  final_score : ℚ
  missing_fields : List String
  equivalent_income : ℚ
  adult_equivalent : ℚ
  burden_ratio : ℚ
deriving DecidableEq

/-- The `data_characteristics` sub-dictionary of the audit trail. -/
structure DataCharacteristics where
  state : String
  income_bracket : String
  household_size : ℤ
  has_disability : Bool
  documentation_complete : Bool
deriving DecidableEq

/-- The `calculation_details` sub-dictionary of the audit trail. -/
structure CalculationDetails where
  equivalent_income : ℚ
  adult_equivalent : ℚ
  burden_ratio : ℚ
  tier_range : String
deriving DecidableEq

/-- `_create_audit_trail` output.  `datetime.now().isoformat()` is modelled
by the integer call time; the fixed `fyp_approach` flag dictionary carries no
information and is omitted. -/
structure AuditTrail where
  timestamp : ℤ
  execution_time_seconds : ℤ
  tool_version : String
  scoring_method : String
  data_characteristics : DataCharacteristics
  calculation_details : CalculationDetails
  scoring_stats : ScoringStats
  missing_fields : List String
deriving DecidableEq

/-- `_create_audit_trail`.  `t_start` is the `scoring_start_time` captured at
the top of `forward`; `t_now` is the value of `datetime.now()` when the audit
trail is built. -/
def _create_audit_trail (d : ApplicantData) (burden_result : BurdenCalculationResult)
    (breakdown : ScoringBreakdown) (t_start t_now : ℤ) (stats : ScoringStats) : AuditTrail :=
  { timestamp := t_now
    execution_time_seconds := t_now - t_start
    tool_version := "1.0.0"
    scoring_method := "burden_based_equivalent_income"
    data_characteristics :=
      { state := d.state.getD "unknown"
        income_bracket := d.income_bracket.getD "unknown"
        household_size := d.household_size.getD 0
        has_disability := d.disability_status.getD false
        documentation_complete :=
          d.is_signature_valid = some true ∧ d.is_data_authentic = some true }
    calculation_details :=
      { equivalent_income := burden_result.equivalent_income
        adult_equivalent := burden_result.adult_equivalent
        burden_ratio := burden_result.burden_ratio
        tier_range := burden_result.tier_range }
    scoring_stats := stats
    missing_fields := breakdown.missing_fields }

/-- The `breakdown` sub-dictionary of the value returned by `forward`:
again branch-dependent key sets. -/
inductive BreakdownOut where
  | autoQualify (base_score : ℚ) (explanation : String)
  | normal (base_score raw_burden_score documentation_score disability_score
      weighted_burden_75pct weighted_documentation_25pct component_total : ℚ)
deriving DecidableEq

/-- Whether the returned breakdown carries the `disability_auto_qualify`
marker of the disability branch. -/
def BreakdownOut.isAutoQualify : BreakdownOut → Bool
  | .autoQualify _ _ => true
  | .normal _ _ _ _ _ _ _ => false

/-- The `fyp_formula` string of the returned dictionary, modelled by its
numeric payload (the Python `:.1f` decimal rendering is presentation only). -/
inductive FypFormula where
  | autoQualify
  | normal (base_score component_total final_score : ℚ)
deriving DecidableEq

/-- The dictionary returned by `forward`. -/
structure ForwardResult where
  final_score : ℚ
  breakdown : BreakdownOut
  fyp_formula : FypFormula
  equivalent_income : ℚ
  adult_equivalent : ℚ
  burden_ratio : ℚ
  state_median_burden : ℚ
  missing_fields : List String
  audit_trail : AuditTrail
deriving DecidableEq

/-- `forward`.  The source builds a `ScoringBreakdown` under
`tier_range == "Disability Auto-Qualification"` and then dispatches the
return value on the `disability_auto_qualify` flag it just stored; the two
conditions are read back to back, so a single branch models both.
`t_start`/`t_now` model the two `datetime.now()` calls and `stats` the
mutable `self.scoring_stats`. -/
def forward (tbl : StateIncomeTable) (d : ApplicantData) (t_start t_now : ℤ)
    (stats0 : ScoringStats) : ForwardResult × ScoringStats :=
  let stats := { stats0 with total_scores_calculated := stats0.total_scores_calculated + 1 }
  let mf := _check_missing_fields stats d
  let missing_fields := mf.1
  let br := _calculate_burden_score tbl mf.2 d
  let burden_result := br.1
  let stats2 := br.2
  let final_score := burden_result.score
  let documentation_score := _calculate_documentation_score d
  let disability_score := _calculate_disability_score d
  let base_score := _get_base_score (d.income_bracket.getD "")
  if burden_result.tier_range = "Disability Auto-Qualification" then
    let breakdown : ScoringBreakdown :=
      { burden_score := 0
        documentation_score := 0
        disability_score := 100
        weighted_components := .autoQualify base_score 100
        final_score := 100
        missing_fields := missing_fields
        equivalent_income := burden_result.equivalent_income
        adult_equivalent := burden_result.adult_equivalent
        burden_ratio := burden_result.burden_ratio }
    let audit_trail := _create_audit_trail d burden_result breakdown t_start t_now stats2
    ({ final_score := 100
       breakdown := .autoQualify base_score "Automatic 100% qualification due to disability status"
       fyp_formula := .autoQualify
       equivalent_income := breakdown.equivalent_income
       adult_equivalent := breakdown.adult_equivalent
       burden_ratio := breakdown.burden_ratio
       state_median_burden := burden_result.reference_burden
       missing_fields := breakdown.missing_fields
       audit_trail := audit_trail }, stats2)
  else
    let raw_burden_score := _calculate_raw_burden_score burden_result.burden_ratio
    let weighted_burden := raw_burden_score * 0.75
    let weighted_documentation := documentation_score * 0.25
    let component_total := weighted_burden + weighted_documentation
    let breakdown : ScoringBreakdown :=
      { burden_score := raw_burden_score
        documentation_score := documentation_score
        disability_score := disability_score
        weighted_components := .normal base_score raw_burden_score weighted_burden
          weighted_documentation component_total final_score
        final_score := round2 final_score
        missing_fields := missing_fields
        equivalent_income := burden_result.equivalent_income
        adult_equivalent := burden_result.adult_equivalent
        burden_ratio := burden_result.burden_ratio }
    let audit_trail := _create_audit_trail d burden_result breakdown t_start t_now stats2
    ({ final_score := breakdown.final_score
       breakdown := .normal base_score breakdown.burden_score breakdown.documentation_score
         breakdown.disability_score weighted_burden weighted_documentation component_total
       fyp_formula := .normal base_score component_total breakdown.final_score
       equivalent_income := breakdown.equivalent_income
       adult_equivalent := breakdown.adult_equivalent
       burden_ratio := breakdown.burden_ratio
       state_median_burden := burden_result.reference_burden
       missing_fields := breakdown.missing_fields
       audit_trail := audit_trail }, stats2)

end Eligibility

/-! ## Dual-analysis comparator (`analysis_comparator.py`) -/

namespace Comparator

/-- RAG analysis result dictionary: only the keys the comparator reads. -/
structure RagResult where
  score : Option ℚ
  confidence : Option ℚ
deriving DecidableEq

/-- Formula analysis result dictionary: only the key the comparator reads. -/
structure FormulaResult where
  score : Option ℚ
deriving DecidableEq

/-- Comparator configuration (`__init__` arguments). -/
structure AnalysisComparator where
  agreement_threshold : ℚ
  low_confidence_threshold : ℚ
deriving DecidableEq

/-- The `__init__` defaults: threshold 5.0 points, low confidence 0.5. -/
def defaultComparator : AnalysisComparator :=
  { agreement_threshold := 5.0, low_confidence_threshold := 0.5 }

/-- The recommendation string of `_generate_recommendation`, modelled by its
branch and numeric payload (decimal rendering is presentation only). -/
inductive Recommendation where
  | formulaLowConfidence (formula_score rag_confidence : ℚ)
  | consensus (avg_score agreement_threshold : ℚ)
  | disagreement (rag_score formula_score delta : ℚ)
deriving DecidableEq

/-- The comment string of `_generate_comment`, modelled the same way. -/
inductive ExplanatoryComment where
  | lowConfidence (rag_confidence : ℚ)
  | agreementWithin (agreement_threshold : ℚ)
  | significantDisagreement (score_difference : ℚ)
  | moderateDisagreement (score_difference : ℚ)
deriving DecidableEq

/-- `ComparisonResult` dataclass. -/
structure ComparisonResult where
  agreement : Bool
  score_difference : ℚ
  rag_confidence : ℚ
  recommendation : Recommendation
  comment : ExplanatoryComment
deriving DecidableEq

/-- `_generate_recommendation`: low-confidence check first, then agreement,
then disagreement. -/
def _generate_recommendation (c : AnalysisComparator)
    (rag_score formula_score rag_confidence : ℚ) (agreement : Bool) : Recommendation :=
  if rag_confidence < c.low_confidence_threshold then
    .formulaLowConfidence formula_score rag_confidence
  else if agreement then
    .consensus ((rag_score + formula_score) / 2) c.agreement_threshold
  else
    .disagreement rag_score formula_score |rag_score - formula_score|

/-- `_generate_comment`. -/
def _generate_comment (c : AnalysisComparator)
    (score_difference rag_confidence : ℚ) (agreement : Bool) : ExplanatoryComment :=
  if rag_confidence < c.low_confidence_threshold then
    .lowConfidence rag_confidence
  else if agreement then
    .agreementWithin c.agreement_threshold
  else if score_difference > 15.0 then
    .significantDisagreement score_difference
  else
    .moderateDisagreement score_difference

/-- `compare`: missing `score`/`confidence` keys default to 0.0; agreement is
decided purely by the score difference against the threshold. -/
def compare (c : AnalysisComparator) (rag_result : RagResult)
    (formula_result : FormulaResult) : ComparisonResult :=
  let rag_score := rag_result.score.getD 0.0
  let formula_score := formula_result.score.getD 0.0
  let rag_confidence := rag_result.confidence.getD 0.0
  let score_difference := |rag_score - formula_score|
  let agreement : Bool := score_difference ≤ c.agreement_threshold
  let recommendation := _generate_recommendation c rag_score formula_score rag_confidence agreement
  let comment := _generate_comment c score_difference rag_confidence agreement
  { agreement := agreement
    score_difference := Eligibility.round1 score_difference
    rag_confidence := rag_confidence
    recommendation := recommendation
    comment := comment }

end Comparator

/-! ## Auxiliary definitions for concrete instances -/

open Eligibility Comparator

/-- The empty CSV table (every (state, bracket) cell absent). -/
def tblEmpty : StateIncomeTable := fun _ _ => none

/-- A one-cell CSV table holding the (Johor, B3) mean income RM 4480. -/
def tblJohor : StateIncomeTable :=
  fun st br => if st = "Johor" ∧ br = "B3" then some 4480 else none

/-- A fully populated non-disabled applicant record. -/
def sampleRecord : ApplicantData :=
  { state := some "Johor", income_bracket := some "B3", household_size := some 4,
    number_of_children := some 2, disability_status := some false,
    is_signature_valid := some true, is_data_authentic := some true }

/-- The pure scoring payload of a `forward` result: every returned field
except the audit trail. -/
def scoringFields (r : ForwardResult) :
    ℚ × BreakdownOut × FypFormula × ℚ × ℚ × ℚ × ℚ × List String :=
  (r.final_score, r.breakdown, r.fyp_formula, r.equivalent_income,
    r.adult_equivalent, r.burden_ratio, r.state_median_burden, r.missing_fields)

/-- The ten sub-bracket codes of `bracket_to_class`. -/
def known_brackets : List String :=
  ["B1", "B2", "B3", "B4", "M1", "M2", "M3", "M4", "T1", "T2"]

/-! ## Supporting lemmas -/

/-- The equivalent income value does not depend on the statistics state. -/
theorem ei_val (tbl : StateIncomeTable) (s s' : ScoringStats) (st br : String) :
    (_get_equivalent_income tbl s st br).1 = (_get_equivalent_income tbl s' st br).1 := by
  unfold _get_equivalent_income
  cases h : tbl (state_name_mapping st) br <;> simp only [h]
  cases h2 : national_thresholds br <;> simp only [h2]

/-- The equivalent income lookup never touches the total-scores counter. -/
theorem ei_total (tbl : StateIncomeTable) (s : ScoringStats) (st br : String) :
    (_get_equivalent_income tbl s st br).2.total_scores_calculated
      = s.total_scores_calculated := by
  unfold _get_equivalent_income
  cases h : tbl (state_name_mapping st) br <;> simp only [h]
  cases h2 : national_thresholds br <;> simp only [h2]

/-- The missing-fields check never touches the total-scores counter. -/
theorem cmf_total (s : ScoringStats) (d : ApplicantData) :
    (_check_missing_fields s d).2.total_scores_calculated = s.total_scores_calculated := by
  unfold _check_missing_fields
  dsimp only
  split <;> rfl

/-- The missing-fields list is a pure function of the record. -/
theorem cmf_val (s : ScoringStats) (d : ApplicantData) :
    (_check_missing_fields s d).1 = required_missing d := by
  unfold _check_missing_fields
  dsimp only
  split <;> rfl

/-- The burden calculation value does not depend on the statistics state. -/
theorem cbs_val (tbl : StateIncomeTable) (s s' : ScoringStats) (d : ApplicantData) :
    (_calculate_burden_score tbl s d).1 = (_calculate_burden_score tbl s' d).1 := by
  unfold _calculate_burden_score
  dsimp only
  rw [ei_val tbl s s' (d.state.getD "") (d.income_bracket.getD "")]
  cases hd : d.disability_status.getD false <;>
    simp only [hd, if_true, if_false, Bool.false_eq_true, reduceIte]

/-- The burden calculation never touches the total-scores counter. -/
theorem cbs_total (tbl : StateIncomeTable) (s : ScoringStats) (d : ApplicantData) :
    (_calculate_burden_score tbl s d).2.total_scores_calculated
      = s.total_scores_calculated := by
  unfold _calculate_burden_score
  dsimp only
  split <;> simp [ei_total]

/-- With truthy disability status, the burden calculation returns the
sentinel tier string and score 100. -/
theorem cbs_disab (tbl : StateIncomeTable) (s : ScoringStats) (d : ApplicantData)
    (h : d.disability_status.getD false = true) :
    (_calculate_burden_score tbl s d).1.tier_range = "Disability Auto-Qualification" ∧
      (_calculate_burden_score tbl s d).1.score = 100 := by
  unfold _calculate_burden_score
  dsimp only
  simp only [h, if_true, reduceIte]
  exact ⟨trivial, trivial⟩

/-- Without disability status, the burden calculation returns the base/raw
tier string and the FYP final score. -/
theorem cbs_nondisab (tbl : StateIncomeTable) (s : ScoringStats) (d : ApplicantData)
    (h : d.disability_status.getD false = false) :
    (_calculate_burden_score tbl s d).1.tier_range =
        "Base: " ++ toString (_get_base_score (d.income_bracket.getD "")) ++ ", Raw burden: "
          ++ toString (_calculate_raw_burden_score (_calculate_burden_score tbl s d).1.burden_ratio) ∧
      (_calculate_burden_score tbl s d).1.score =
        _calculate_final_score (_get_base_score (d.income_bracket.getD ""))
          (_calculate_raw_burden_score (_calculate_burden_score tbl s d).1.burden_ratio)
          (_calculate_documentation_score d) (_calculate_disability_score d) := by
  unfold _calculate_burden_score
  dsimp only
  simp only [h, Bool.false_eq_true, if_false, reduceIte]
  exact ⟨trivial, trivial⟩

/-- The non-disabled tier string can never equal the disability sentinel. -/
theorem tier_ne (a b : String) :
    ¬ ("Base: " ++ a ++ ", Raw burden: " ++ b = "Disability Auto-Qualification") := by
  intro h
  have hd := congrArg String.data h
  have e1 : ∀ s t : String, (s ++ t).data = s.data ++ t.data := fun _ _ => rfl
  rw [e1, e1, e1] at hd
  have h2 : "Base: ".data = ['B', 'a', 's', 'e', ':', ' '] := rfl
  rw [h2] at hd
  simp at hd

/-- The raw burden score only takes the four values 50, 70, 90, 100. -/
theorem raw_mem (r : ℚ) :
    _calculate_raw_burden_score r = 50 ∨ _calculate_raw_burden_score r = 70 ∨
      _calculate_raw_burden_score r = 90 ∨ _calculate_raw_burden_score r = 100 := by
  unfold _calculate_raw_burden_score
  split_ifs <;> norm_num

/-- The base score only takes the four values 0, 20, 40, 60. -/
theorem base_mem (b : String) :
    _get_base_score b = 0 ∨ _get_base_score b = 20 ∨
      _get_base_score b = 40 ∨ _get_base_score b = 60 := by
  unfold _get_base_score bracket_to_class
  split_ifs <;> simp [base_scores]

/-- The documentation score is 0 or 100. -/
theorem doc_mem (d : ApplicantData) :
    _calculate_documentation_score d = 0 ∨ _calculate_documentation_score d = 100 := by
  unfold _calculate_documentation_score
  split_ifs <;> norm_num

/-- Rounding to two decimals is the identity on half-integers. -/
theorem round2_eq_self (q : ℚ) (n : ℤ) (h : q * 2 = n) : round2 q = q := by
  unfold round2
  have h100 : q * 100 = ((n * 50 : ℤ) : ℚ) := by push_cast; linarith
  rw [h100, round_intCast]
  push_cast
  linarith

/-- Every FYP final score is a half-integer. -/
theorem final_half (b r dc ds : ℚ)
    (hb : b = 0 ∨ b = 20 ∨ b = 40 ∨ b = 60)
    (hr : r = 50 ∨ r = 70 ∨ r = 90 ∨ r = 100)
    (hdc : dc = 0 ∨ dc = 100) :
    ∃ n : ℤ, _calculate_final_score b r dc ds * 2 = n := by
  unfold _calculate_final_score
  dsimp only
  obtain ⟨nb, hb2⟩ : ∃ n : ℤ, b * 2 = n := by
    rcases hb with rfl | rfl | rfl | rfl
    exacts [⟨0, by norm_num⟩, ⟨40, by norm_num⟩, ⟨80, by norm_num⟩, ⟨120, by norm_num⟩]
  obtain ⟨nr, hr2⟩ : ∃ n : ℤ, r * 0.75 * 2 = n := by
    rcases hr with rfl | rfl | rfl | rfl
    exacts [⟨75, by norm_num⟩, ⟨105, by norm_num⟩, ⟨135, by norm_num⟩, ⟨150, by norm_num⟩]
  obtain ⟨nd, hd2⟩ : ∃ n : ℤ, dc * 0.25 * 2 = n := by
    rcases hdc with rfl | rfl
    exacts [⟨0, by norm_num⟩, ⟨50, by norm_num⟩]
  rcases le_total 100 (b + (r * 0.75 + dc * 0.25)) with hle | hle
  · exact ⟨200, by rw [min_eq_left hle]; norm_num⟩
  · refine ⟨nb + nr + nd, ?_⟩
    rw [min_eq_right hle]
    push_cast
    linarith

/-- On the disability branch, `forward` returns score 100 and the
auto-qualify breakdown. -/
theorem forward_disab (tbl : StateIncomeTable) (d : ApplicantData) (t1 t2 : ℤ)
    (s : ScoringStats) (h : d.disability_status.getD false = true) :
    (forward tbl d t1 t2 s).1.final_score = 100 ∧
      (forward tbl d t1 t2 s).1.breakdown.isAutoQualify = true := by
  unfold forward
  dsimp only
  rw [(cbs_disab tbl _ d h).1]
  simp only [reduceIte, BreakdownOut.isAutoQualify]
  exact ⟨trivial, trivial⟩

/-- On the non-disabled branch, the returned final score is exactly the FYP
capped composite (the two-decimal rounding is the identity there). -/
theorem forward_final_nondisab (tbl : StateIncomeTable) (d : ApplicantData) (t1 t2 : ℤ)
    (s : ScoringStats) (h : d.disability_status.getD false = false) :
    (forward tbl d t1 t2 s).1.final_score =
      min 100 (_get_base_score (d.income_bracket.getD "") +
        (_calculate_raw_burden_score ((_calculate_burden_score tbl s d).1.burden_ratio) * 0.75 +
          _calculate_documentation_score d * 0.25)) := by
  unfold forward
  dsimp only
  rw [(cbs_nondisab tbl _ d h).1]
  rw [if_neg (tier_ne _ _)]
  dsimp only
  rw [(cbs_nondisab tbl _ d h).2]
  rw [cbs_val tbl _ s d]
  obtain ⟨n, hn⟩ := final_half (_get_base_score (d.income_bracket.getD ""))
    (_calculate_raw_burden_score ((_calculate_burden_score tbl s d).1.burden_ratio))
    (_calculate_documentation_score d) (_calculate_disability_score d)
    (base_mem _) (raw_mem _) (doc_mem d)
  rw [round2_eq_self _ n hn]
  unfold _calculate_final_score
  dsimp only

/-- The raw burden score is monotone in the burden ratio. -/
theorem raw_mono (r r' : ℚ) (h : r ≤ r') :
    _calculate_raw_burden_score r ≤ _calculate_raw_burden_score r' := by
  unfold _calculate_raw_burden_score
  split_ifs <;> linarith

/-- The audit trail snapshots exactly the final statistics state. -/
theorem forward_audit_stats (tbl : StateIncomeTable) (d : ApplicantData)
    (t1 t2 : ℤ) (s : ScoringStats) :
    (forward tbl d t1 t2 s).1.audit_trail.scoring_stats = (forward tbl d t1 t2 s).2 := by
  unfold forward
  dsimp only
  split <;> rfl

/-- Every call to `forward` increments the total-scores counter. -/
theorem forward_total (tbl : StateIncomeTable) (d : ApplicantData)
    (t1 t2 : ℤ) (s : ScoringStats) :
    (forward tbl d t1 t2 s).2.total_scores_calculated = s.total_scores_calculated + 1 := by
  unfold forward
  dsimp only
  split <;> simp [cbs_total, cmf_total]

/-- The audit trail's statistics snapshot shows the incremented counter. -/
theorem forward_audit_total (tbl : StateIncomeTable) (d : ApplicantData) (t1 t2 : ℤ)
    (s : ScoringStats) :
    (forward tbl d t1 t2 s).1.audit_trail.scoring_stats.total_scores_calculated
      = s.total_scores_calculated + 1 := by
  rw [forward_audit_stats, forward_total]

/-- Unknown bracket codes map to no eligibility class, are read back as the
default class T20, and get base score 0. -/
theorem bracket_unknown (b : String) (hb : b ∉ known_brackets) :
    bracket_to_class b = none ∧ (bracket_to_class b).getD "T20" = "T20" ∧
      _get_base_score b = 0 := by
  have hn : bracket_to_class b = none := by
    unfold bracket_to_class
    split_ifs <;> simp_all [known_brackets]
  refine ⟨hn, by rw [hn]; rfl, ?_⟩
  unfold _get_base_score
  rw [hn]
  rfl

/-! ## Claim theorems -/

/-- C1: for every well-typed applicant record with disability status false,
the engine's final score equals
`min(100, tierBaseScore + rawBurdenScore*0.75 + documentationScore*0.25)`,
where the tier base comes from `_get_base_score`, the raw burden score from
the piecewise `_calculate_raw_burden_score` at the record's burden ratio,
and the documentation score from the all-or-nothing gate. -/
theorem spec_C1_nondisabled_final_formula (tbl : StateIncomeTable) (d : ApplicantData)
    (t1 t2 : ℤ) (s : ScoringStats) (h : d.disability_status.getD false = false) :
    (forward tbl d t1 t2 s).1.final_score =
      min 100 (_get_base_score (d.income_bracket.getD "") +
        (_calculate_raw_burden_score ((_calculate_burden_score tbl s d).1.burden_ratio) * 0.75 +
          _calculate_documentation_score d * 0.25)) :=
  forward_final_nondisab tbl d t1 t2 s h

/-- C1 witness: the formula holds at a concrete non-disabled record. -/
theorem spec_C1_witness :
    sampleRecord.disability_status.getD false = false ∧
      (forward tblEmpty sampleRecord 0 0 initStats).1.final_score =
        min 100 (_get_base_score (sampleRecord.income_bracket.getD "") +
          (_calculate_raw_burden_score
              ((_calculate_burden_score tblEmpty initStats sampleRecord).1.burden_ratio) * 0.75 +
            _calculate_documentation_score sampleRecord * 0.25)) :=
  ⟨rfl, spec_C1_nondisabled_final_formula tblEmpty sampleRecord 0 0 initStats rfl⟩

/-- C2: for every input record (any table, any call time, any statistics
state), the final score returned by the engine lies in [0, 100]. -/
theorem spec_C2_final_score_range (tbl : StateIncomeTable) (d : ApplicantData)
    (t1 t2 : ℤ) (s : ScoringStats) :
    0 ≤ (forward tbl d t1 t2 s).1.final_score ∧
      (forward tbl d t1 t2 s).1.final_score ≤ 100 := by
  cases h : d.disability_status.getD false
  · rw [forward_final_nondisab tbl d t1 t2 s h]
    constructor
    · apply le_min (by norm_num)
      have hb := base_mem (d.income_bracket.getD "")
      have hr := raw_mem ((_calculate_burden_score tbl s d).1.burden_ratio)
      have hd := doc_mem d
      rcases hb with hb | hb | hb | hb <;> rcases hr with hr | hr | hr | hr <;>
        rcases hd with hd | hd <;> rw [hb, hr, hd] <;> norm_num
    · exact min_le_left _ _
  · rw [(forward_disab tbl d t1 t2 s h).1]
    norm_num

/-- C3: for every input record with disability status true, the engine
returns final score exactly 100 with the auto-qualified breakdown marker,
regardless of state, bracket, household size, children, documentation flags,
reference table, call time and statistics state. -/
theorem spec_C3_disability_auto_qualification (tbl : StateIncomeTable)
    (st br : Option String) (hs nc : Option ℤ) (sig auth : Option Bool)
    (t1 t2 : ℤ) (s : ScoringStats) :
    (forward tbl ⟨st, br, hs, nc, some true, sig, auth⟩ t1 t2 s).1.final_score = 100 ∧
      (forward tbl ⟨st, br, hs, nc, some true, sig, auth⟩ t1 t2 s).1.breakdown.isAutoQualify
        = true :=
  forward_disab tbl _ t1 t2 s rfl

/-- C4 counterexample: with contextual confidence 0.3 below the default
low-confidence threshold 0.5 and identical scores (difference 0, within the
agreement threshold), the comparator returns agreement = true, refuting the
claim that low confidence forces agreement = false. -/
theorem spec_C4_counterexample :
    (some (0.3 : ℚ) : Option ℚ).getD 0.0 < defaultComparator.low_confidence_threshold ∧
      |((75 : ℚ) - 75)| ≤ defaultComparator.agreement_threshold ∧
      (Comparator.compare defaultComparator ⟨some 75, some 0.3⟩ ⟨some 75⟩).agreement = true := by
  refine ⟨by norm_num [defaultComparator], by norm_num [defaultComparator], ?_⟩
  simp [Comparator.compare, defaultComparator]
  norm_num

/-- C4 (amended): whenever the contextual confidence is strictly below the
low-confidence threshold, the recommendation explicitly favors the formula
score citing the low contextual confidence; the agreement flag, however, is
computed solely from the score difference against the agreement threshold
and is unaffected by the confidence. -/
theorem spec_C4_low_confidence_recommendation (c : AnalysisComparator)
    (rag : RagResult) (f : FormulaResult)
    (h : rag.confidence.getD 0.0 < c.low_confidence_threshold) :
    (Comparator.compare c rag f).recommendation =
        .formulaLowConfidence (f.score.getD 0.0) (rag.confidence.getD 0.0) ∧
      ((Comparator.compare c rag f).agreement = true ↔
        |rag.score.getD 0.0 - f.score.getD 0.0| ≤ c.agreement_threshold) := by
  unfold Comparator.compare _generate_recommendation
  dsimp only
  rw [if_pos h]
  simp

/-- C4 witness: the amended statement at a concrete low-confidence input. -/
theorem spec_C4_witness :
    (Comparator.compare defaultComparator ⟨some 90, some 0.3⟩ ⟨some 75⟩).recommendation =
        .formulaLowConfidence 75 0.3 ∧
      ((Comparator.compare defaultComparator ⟨some 90, some 0.3⟩ ⟨some 75⟩).agreement = true ↔
        |(90 : ℚ) - 75| ≤ defaultComparator.agreement_threshold) :=
  spec_C4_low_confidence_recommendation defaultComparator ⟨some 90, some 0.3⟩ ⟨some 75⟩
    (by norm_num [defaultComparator])

/-- C5: the raw burden score is exactly 50 for ratios ≤ 1.0, 70 on
(1.0, 1.2], 90 on (1.2, 1.5], 100 above 1.5; its range is {50, 70, 90, 100};
the bucket boundaries 1.0 and 1.2 are inclusive on the upper side; and the
function is monotonically non-decreasing. -/
theorem spec_C5_piecewise_burden_score (r r' : ℚ) :
    ((r ≤ 1.0 → _calculate_raw_burden_score r = 50) ∧
      (1.0 < r ∧ r ≤ 1.2 → _calculate_raw_burden_score r = 70) ∧
      (1.2 < r ∧ r ≤ 1.5 → _calculate_raw_burden_score r = 90) ∧
      (1.5 < r → _calculate_raw_burden_score r = 100)) ∧
    (_calculate_raw_burden_score r = 50 ∨ _calculate_raw_burden_score r = 70 ∨
      _calculate_raw_burden_score r = 90 ∨ _calculate_raw_burden_score r = 100) ∧
    (_calculate_raw_burden_score 1.0 = 50 ∧ _calculate_raw_burden_score 1.2 = 70) ∧
    (r ≤ r' → _calculate_raw_burden_score r ≤ _calculate_raw_burden_score r') := by
  refine ⟨⟨fun h => ?_, fun h => ?_, fun h => ?_, fun h => ?_⟩,
    raw_mem r, ⟨?_, ?_⟩, fun h => raw_mono r r' h⟩
  · unfold _calculate_raw_burden_score
    rw [if_pos h]
  · obtain ⟨ha, hb⟩ := h
    unfold _calculate_raw_burden_score
    rw [if_neg (by linarith), if_pos hb]
  · obtain ⟨ha, hb⟩ := h
    unfold _calculate_raw_burden_score
    rw [if_neg (by linarith), if_neg (by linarith), if_pos hb]
  · unfold _calculate_raw_burden_score
    rw [if_neg (by linarith), if_neg (by linarith), if_neg (by linarith)]
  · norm_num [_calculate_raw_burden_score]
  · norm_num [_calculate_raw_burden_score]

/-- C5 witness: the piecewise buckets at concrete ratios 0.9 and 1.3. -/
theorem spec_C5_witness :
    _calculate_raw_burden_score 0.9 = 50 ∧ _calculate_raw_burden_score 1.3 = 90 :=
  ⟨(spec_C5_piecewise_burden_score 0.9 0.9).1.1 (by norm_num),
    (spec_C5_piecewise_burden_score 1.3 1.3).1.2.2.1 ⟨by norm_num, by norm_num⟩⟩

/-- C6: for every combination of the two documentation flags (true, false or
absent), the documentation score is 100 exactly when both flags are present
and literally true, and 0 in every other case; no intermediate value. -/
theorem spec_C6_documentation_all_or_nothing (d : ApplicantData) :
    (_calculate_documentation_score d = 100 ↔
        d.is_signature_valid = some true ∧ d.is_data_authentic = some true) ∧
      (_calculate_documentation_score d = 0 ∨ _calculate_documentation_score d = 100) := by
  unfold _calculate_documentation_score
  split_ifs with h <;> simp [h]

/-- C7: the macro-tier mapping sends B1–B4 to B40, M1/M2 to M40-M1, M3/M4 to
M40-M2, T1/T2 to T20; every code outside these ten maps to none, is read as
the lowest-priority tier T20 for scoring (never B40), and gets base score 0. -/
theorem spec_C7_bracket_macro_tier_mapping :
    (bracket_to_class "B1" = some "B40" ∧ bracket_to_class "B2" = some "B40" ∧
      bracket_to_class "B3" = some "B40" ∧ bracket_to_class "B4" = some "B40" ∧
      bracket_to_class "M1" = some "M40-M1" ∧ bracket_to_class "M2" = some "M40-M1" ∧
      bracket_to_class "M3" = some "M40-M2" ∧ bracket_to_class "M4" = some "M40-M2" ∧
      bracket_to_class "T1" = some "T20" ∧ bracket_to_class "T2" = some "T20") ∧
    ∀ b : String, b ∉ known_brackets →
      bracket_to_class b = none ∧ (bracket_to_class b).getD "T20" = "T20" ∧
        _get_base_score b = 0 := by
  refine ⟨⟨rfl, rfl, rfl, rfl, rfl, rfl, rfl, rfl, rfl, rfl⟩, fun b hb => bracket_unknown b hb⟩

/-- C7 witness: the unknown-code branch at the concrete code X9. -/
theorem spec_C7_witness :
    "X9" ∉ known_brackets ∧ bracket_to_class "X9" = none ∧
      (bracket_to_class "X9").getD "T20" = "T20" ∧ _get_base_score "X9" = 0 :=
  ⟨by decide, spec_C7_bracket_macro_tier_mapping.2 "X9" (by decide)⟩

/-- C8: the equivalent income resolves, in order, to the state-table cell
when present (after state-name aliasing), else the national per-bracket
threshold when defined, else the literal constant 5000.0. -/
theorem spec_C8_equivalent_income_fallback_order (tbl : StateIncomeTable)
    (s : ScoringStats) (state income_bracket : String) :
    (∀ v, tbl (state_name_mapping state) income_bracket = some v →
        (_get_equivalent_income tbl s state income_bracket).1 = v) ∧
      (tbl (state_name_mapping state) income_bracket = none →
        ∀ v, national_thresholds income_bracket = some v →
          (_get_equivalent_income tbl s state income_bracket).1 = v) ∧
      (tbl (state_name_mapping state) income_bracket = none →
        national_thresholds income_bracket = none →
          (_get_equivalent_income tbl s state income_bracket).1 = 5000) := by
  refine ⟨fun v hv => ?_, fun h0 v hv => ?_, fun h0 h1 => ?_⟩
  · unfold _get_equivalent_income
    simp only [hv]
  · unfold _get_equivalent_income
    simp only [h0, hv]
  · unfold _get_equivalent_income
    simp only [h0, h1]

/-- C8 witness: the three fallback stages at concrete inputs — a CSV hit for
(Johor, B3), the national threshold for the unknown state Atlantis with
bracket M2, and the 5000 constant for an unknown bracket ZZ. -/
theorem spec_C8_witness :
    (_get_equivalent_income tblJohor initStats "Johor" "B3").1 = 4480 ∧
      (_get_equivalent_income tblEmpty initStats "Atlantis" "M2").1 = 7689 ∧
      (_get_equivalent_income tblEmpty initStats "Atlantis" "ZZ").1 = 5000 :=
  ⟨(spec_C8_equivalent_income_fallback_order tblJohor initStats "Johor" "B3").1 4480 rfl,
    (spec_C8_equivalent_income_fallback_order tblEmpty initStats "Atlantis" "M2").2.1
      rfl 7689 rfl,
    (spec_C8_equivalent_income_fallback_order tblEmpty initStats "Atlantis" "ZZ").2.2 rfl rfl⟩

/-- C9 counterexample: two calls of the engine on the identical record are
not bit-identical — the second call's result differs (its audit trail
snapshots the mutated statistics counter), refuting the claim that every
field of the returned result is equal across runs. -/
theorem spec_C9_counterexample :
    (forward tblEmpty sampleRecord 0 0 initStats).1 ≠
      (forward tblEmpty sampleRecord 0 0 (forward tblEmpty sampleRecord 0 0 initStats).2).1 := by
  intro h
  have h2 := congrArg (fun r => r.audit_trail.scoring_stats.total_scores_calculated) h
  simp only [forward_audit_total, forward_total] at h2
  simp [initStats] at h2

/-- C9 (amended): every returned field except the audit trail — final score,
breakdown, formula payload, equivalent income, adult equivalent, burden
ratio, state median burden, missing fields — is identical across two calls
with the same record and table, whatever the call times and the mutable
statistics state; only the audit trail depends on time and statistics. -/
theorem spec_C9_scoring_fields_deterministic (tbl : StateIncomeTable) (d : ApplicantData)
    (t1 t2 t1' t2' : ℤ) (s s' : ScoringStats) :
    scoringFields (forward tbl d t1 t2 s).1 = scoringFields (forward tbl d t1' t2' s').1 := by
  unfold forward
  dsimp only
  rw [cbs_val tbl _ s d]
  conv_rhs => rw [cbs_val tbl _ s d]
  simp only [cmf_val]
  by_cases hc : (_calculate_burden_score tbl s d).1.tier_range = "Disability Auto-Qualification"
  · simp only [if_pos hc, scoringFields]
  · simp only [if_neg hc, scoringFields]

/-- C10: a missing score key in either result is read as the score 0.0, a
missing confidence key as confidence 0.0, and a contextual result without a
confidence key takes the low-confidence path: the recommendation favors the
formula score. -/
theorem spec_C10_missing_keys_default_zero :
    (∀ (c : AnalysisComparator) (conf : Option ℚ) (f : FormulaResult),
        Comparator.compare c ⟨none, conf⟩ f = Comparator.compare c ⟨some 0.0, conf⟩ f) ∧
      (∀ (c : AnalysisComparator) (rag : RagResult),
        Comparator.compare c rag ⟨none⟩ = Comparator.compare c rag ⟨some 0.0⟩) ∧
      (∀ (c : AnalysisComparator) (sc : Option ℚ) (f : FormulaResult),
        Comparator.compare c ⟨sc, none⟩ f = Comparator.compare c ⟨sc, some 0.0⟩ f) ∧
      (∀ (rag : RagResult) (f : FormulaResult), rag.confidence = none →
        (Comparator.compare defaultComparator rag f).recommendation =
          .formulaLowConfidence (f.score.getD 0.0) 0.0) := by
  refine ⟨fun c conf f => rfl, fun c rag => rfl, fun c sc f => rfl, fun rag f h => ?_⟩
  unfold Comparator.compare _generate_recommendation
  dsimp only
  rw [h]
  norm_num [defaultComparator]

/-- C10 witness: a contextual result without a confidence key at concrete
scores takes the formula-favoring branch. -/
theorem spec_C10_witness :
    (Comparator.compare defaultComparator ⟨some 80, none⟩ ⟨some 75⟩).recommendation =
      .formulaLowConfidence 75 0.0 :=
  spec_C10_missing_keys_default_zero.2.2.2 ⟨some 80, none⟩ ⟨some 75⟩ rfl

end GovSubsidy
